import Mathlib

/-!
Verification development for the infit-island narrative/character
simulation engine.  The definitions below are a shallow embedding of the
Python source:

* `retrieve_context`, `extract_json` and the json post-processing of
  `get_response` embed `engine/ai/llm_handler.py`;
* `create_character`, `create_characters` and `interact` embed
  `engine/logic/character_engine.py`;
* `start_story`, `progress_story`, `get_latest_story_segment` and
  `manage_history` embed `engine/logic/game_loop.py`.

External collaborators (the Mongo driver, the `slugify` library, the
random sampler, the generation service and the TTS engine) are passed in
as explicit oracles/parameters; everything the repository itself computes
is modelled concretely.  ObjectIds are modelled as naturals drawn from a
store counter, timestamps as a logical clock that increases at every
insert (matching `datetime.utcnow()` monotonicity within a run), and
float affinity scores as rationals (the code never does float arithmetic
on them, it only stores `0.0` and values returned by the LLM).
-/

namespace InfitIsland

/-- BSON-style document key: either a driver-generated ObjectId (modelled
as a natural) or a string key.  Mongo equality never identifies an
ObjectId with a string, which matters for `manage_history`'s
`update_one({"_id": conversation_id})` filter. -/
inductive BVal where
  | oid (n : Nat)
  | str (s : String)
deriving DecidableEq

/-- The string form `str(ObjectId)` used when a conversation id is stored
inside message documents; modelled as an injective rendering of the
counter. -/
def oidStr (n : Nat) : String := "oid" ++ toString n

/-- A character document of the `characters` collection
(`character_engine.py`, `create_character`). -/
structure Character where
  id : String
  name : String
  personality : List String
  background : String
  traits : List String
  voice_type : String
  ethnicity : String
  religion : String
  mental_illness : List String
  subconscious_traits : List String
  mood : String
  relationships : List (String × Rat)
  technical_iq : Nat
  general_iq : Nat
deriving DecidableEq

/-- A record of the `relationships` collection. -/
structure RelRec where
  char1_id : String
  char2_id : String
  affinity_score : Rat
  interaction_history : List String
deriving DecidableEq

/-- A document of the `conversations` collection.  The summary fields
written by `manage_history`'s `$set` are optional (absent until set). -/
structure Conversation where
  id : BVal
  timestamp : Nat
  participants : List String
  messages : List Nat
  summary : String
  summary_data : Option (Option String × Option (List String) × Option String) := none
  key_points : Option (List String) := none
  sentiment : Option String := none
deriving DecidableEq

/-- A document of the `messages` collection.  Fields that only some
writers set are modelled with explicit absence where a reader
distinguishes absent from default (`is_game_over`), and collapsed to
their read-default where no reader can tell the difference
(`choices` is read with default `[]`, `director_control` is only used in
an equality-with-`True` filter). -/
structure Message where
  id : Nat
  conversation_id : String
  timestamp : Nat
  speaker_type : String
  speaker_id : String
  content : String
  emotion : String
  context_tags : List (String × String)
  choices : List String
  director_control : Bool
  is_game_over : Option Bool
  triggering_choice : Option String
deriving DecidableEq

/-- The shared persistent document store. -/
structure Store where
  characters : List Character
  conversations : List Conversation
  messages : List Message
  relationships : List RelRec
  nextId : Nat
  clock : Nat
deriving DecidableEq

/-- Insert a message document: the driver assigns a fresh ObjectId and the
document carries the current wall-clock timestamp. -/
def insertMsg (st : Store) (mk : Nat → Nat → Message) : Store × Nat :=
  ({ st with
      messages := st.messages ++ [mk st.nextId st.clock]
      nextId := st.nextId + 1
      clock := st.clock + 1 }, st.nextId)

/-! ## LLMHandler.retrieve_context (`llm_handler.py`, lines 199-276) -/

/-- The generation service's answer to a ranking request, as seen after
`get_response`: either a dict containing an integer list under
`ranked_indices`, or anything else (`None`, a raw string, a dict without
the key, or an exception while handling it) - every such case reaches the
same `context_data[:min(top_k, len(context_data))]` fallback. -/
inductive RankResp where
  | ok (indices : List Int)
  | bad
deriving DecidableEq

/-- `LLMHandler.retrieve_context`: empty input short-circuits to `[]`;
a well-formed response has its indices filtered to the valid range
`[0, len(context_data))`, truncated to `top_k` and used to index the
items; anything else falls back to the first `top_k` items. -/
def retrieve_context {α : Type} (context_data : List α) (top_k : Nat)
    (resp : RankResp) : List α :=
  if context_data.isEmpty then []
  else
    match resp with
    | .ok indices =>
        let valid := indices.filter
          (fun i => decide (0 ≤ i) && decide (i < (context_data.length : Int)))
        (valid.take top_k).filterMap (fun i => context_data.get? i.toNat)
    | .bad => context_data.take (min top_k context_data.length)

/-! ## LLMHandler._extract_json and get_response post-processing
(`llm_handler.py`, lines 79-112) -/

/-- The backquote character, written by code point to keep the source free
of the literal. -/
def btick : Char := Char.ofNat 96

/-- Three backquotes: a markdown code fence. -/
def fence3 : List Char := [btick, btick, btick]

/-- Does the text start with a code fence? -/
def isFence3 : List Char → Bool
  | a :: b :: c :: _ => a == btick && b == btick && c == btick
  | _ => false

/-- Split the text at the first code fence: returns the part before the
fence and the part after it, or `none` when no fence occurs.  This is the
scanning behaviour of `re.findall` for the fence-opening position. -/
def findFence : List Char → Option (List Char × List Char)
  | [] => none
  | c :: cs =>
      if isFence3 (c :: cs) then some ([], cs.drop 2)
      else (findFence cs).map (fun pr => (c :: pr.1, pr.2))

/-- A text contains a code fence. -/
def hasFence (cs : List Char) : Bool := (findFence cs).isSome

/-- The characters of the optional `json` tag after an opening fence
(regex `(?:json)?`). -/
def jsonTag : List Char := ['j', 's', 'o', 'n']

/-- Does the text start with the literal `json` tag? -/
def startsWithJson (cs : List Char) : Bool := jsonTag.isPrefixOf cs

/-- Strip the optional `json` tag. -/
def dropJsonTag (cs : List Char) : List Char :=
  if startsWithJson cs then cs.drop 4 else cs

/-- ASCII whitespace as matched by the regex class. -/
def isWS (c : Char) : Bool :=
  c == ' ' || c == '\t' || c == '\n' || c == '\r' ||
    c == Char.ofNat 11 || c == Char.ofNat 12

/-- Strip trailing whitespace (the greedy trailing part of the capture
pattern). -/
def rstrip (cs : List Char) : List Char :=
  (cs.reverse.dropWhile isWS).reverse

/-- `LLMHandler._extract_json`: the content of the first fenced code block
found anywhere in the text (optional `json` tag and surrounding whitespace
stripped) when one exists, otherwise the full text. -/
def extract_json (cs : List Char) : List Char :=
  match findFence cs with
  | none => cs
  | some (_, rest) =>
      let r := (dropJsonTag rest).dropWhile isWS
      match findFence r with
      | some (content, _) => rstrip content
      | none => cs

/-- Outcome of the json branch of `get_response`: a structured value or
the raw unparsed text. -/
inductive JsonOutcome (J : Type) where
  | structured (v : J)
  | raw (s : List Char)
deriving DecidableEq

/-- The `json_format` post-processing of `LLMHandler.get_response`: run
`_extract_json`, then attempt a parse (`json.loads`, supplied as an
oracle); on success return the structured value, on `JSONDecodeError`
return the extracted-but-unparsed text instead of raising. -/
def get_response_json {J : Type} (parse : List Char → Option J)
    (content : List Char) : JsonOutcome J :=
  let c := extract_json content
  match parse c with
  | some v => .structured v
  | none => .raw c

/-! ## CharacterEngine.create_character / create_characters
(`character_engine.py`, lines 29-117) -/

/-- One draw of `random.sample` / `random.choice` / `random.randint` over
the attribute pools - the output of the external random sampler for a
single loop iteration of `create_character`. -/
structure Draw where
  personality : List String
  background : String
  traits : List String
  voice_type : String
  ethnicity : String
  religion : String
  mental_illness : List String
  subconscious_traits : List String
  technical_iq : Nat
  general_iq : Nat
deriving DecidableEq

/-- Python `str.title` (ASCII): the first alphabetic character of every
alphabetic run is uppercased and the rest lowercased. -/
def titleChars : Bool → List Char → List Char
  | _, [] => []
  | prevAlpha, c :: cs =>
      (if c.isAlpha then (if prevAlpha then c.toLower else c.toUpper) else c)
        :: titleChars c.isAlpha cs

/-- The candidate display name
`f-string (' '.join(personality)) (background) .title()`. -/
def drawName (d : Draw) : String :=
  String.mk (titleChars false
    (String.intercalate " " d.personality ++ " " ++ d.background).toList)

/-- The uniqueness-retry loop of `create_character` (`while character_doc
is None`): keep asking the sampler for a draw until the slugified name
does not collide with an existing character id.  `slug` is the external
`slugify` library, `draws` the sampler's output stream, and the natural
fuel is the number of iterations we are willing to observe - the Python
loop itself has no bound. -/
def genLoop (slug : String → String) (taken : List String)
    (draws : Nat → Draw) : Nat → Nat → Option (String × Draw)
  | _, 0 => none
  | i, fuel + 1 =>
      let d := draws i
      let cid := slug (drawName d)
      if taken.contains cid then genLoop slug taken draws (i + 1) fuel
      else some (cid, d)

/-- Mongo `$set {"relationships.<k>": v}` on an embedded map: overwrite
the entry when the key exists, append it otherwise. -/
def setRel (m : List (String × Rat)) (k : String) (v : Rat) :
    List (String × Rat) :=
  if m.any (fun p => p.1 == k) then
    m.map (fun p => if p.1 == k then (k, v) else p)
  else m ++ [(k, v)]

/-- Steps 3-4 of `create_character` after a successful unique draw:
every pre-existing character's embedded map gains the new id at affinity
`0.0`, the new character's map is initialised with every pre-existing id
at `0.0`, one `relationships` record is inserted per pre-existing
character, and the new character document is inserted. -/
def applyCreate (st : Store) (cid : String) (d : Draw) :
    Store × Character :=
  let existing := st.characters.map (fun c => c.id)
  let newChar : Character :=
    { id := cid
      name := drawName d
      personality := d.personality
      background := d.background
      traits := d.traits
      voice_type := d.voice_type
      ethnicity := d.ethnicity
      religion := d.religion
      mental_illness := d.mental_illness
      subconscious_traits := d.subconscious_traits
      mood := "neutral"
      relationships := existing.map (fun e => (e, (0 : Rat)))
      technical_iq := d.technical_iq
      general_iq := d.general_iq }
  let newRels : List RelRec := existing.map (fun e =>
    { char1_id := cid
      char2_id := e
      affinity_score := 0
      interaction_history := [] })
  ({ st with
      characters :=
        st.characters.map
          (fun c => { c with relationships := setRel c.relationships cid 0 })
          ++ [newChar]
      relationships := st.relationships ++ newRels }, newChar)

/-- `CharacterEngine.create_character`: run the uniqueness-retry loop
against the ids currently in the `characters` collection, then apply the
relationship initialisation and the insert.  `none` means the observed
iterations never produced a non-colliding draw. -/
def create_character (slug : String → String) (draws : Nat → Draw)
    (fuel : Nat) (st : Store) : Option (Store × Character) :=
  match genLoop slug (st.characters.map (fun c => c.id)) draws 0 fuel with
  | none => none
  | some (cid, d) => some (applyCreate st cid d)

/-- `CharacterEngine.create_characters`: sequential repeated calls to
`create_character`; the call counter `k` selects the sampler stream of
each call. -/
def create_characters (slug : String → String) (draws : Nat → Nat → Draw)
    (fuel : Nat) : Nat → Nat → Store → Option (Store × List Character)
  | _, 0, st => some (st, [])
  | k, n + 1, st =>
      match create_character slug (draws k) fuel st with
      | none => none
      | some (st1, c) =>
          match create_characters slug draws fuel (k + 1) n st1 with
          | none => none
          | some (st2, cs) => some (st2, c :: cs)

/-! ## CharacterEngine.interact (`character_engine.py`, lines 119-309)

The generation call is modelled by its three possible outcomes as
documented in `get_response`: `None` (transport error), a plain string
(parse fallback), or a parsed dict.  The dict is modelled with exactly
the properties of the advisory response schema (the only keys the code
reads); a field is `none` when the key is absent.  Python truthiness of
the whole response (`if not llm_response`) is the emptiness of the dict,
i.e. all modelled fields absent. -/

/-- A parsed structured response to `interact`'s prompt, schema-typed. -/
structure InteractObj where
  name : Option String := none
  personality : Option (List String) := none
  mood : Option String := none
  dialogue : Option String := none
  emotion : Option String := none
  action : Option String := none
  memory_note : Option String := none
  choices : Option (List String) := none
  relationships : Option (List (String × Rat)) := none
  traits : Option (List String) := none
  subconscious_traits : Option (List String) := none
deriving DecidableEq

/-- Python truthiness of the parsed dict: falsy exactly when empty. -/
def InteractObj.isEmptyObj (o : InteractObj) : Bool :=
  o.name == none && o.personality == none && o.mood == none &&
  o.dialogue == none && o.emotion == none && o.action == none &&
  o.memory_note == none && o.choices == none && o.relationships == none &&
  o.traits == none && o.subconscious_traits == none

/-- The outcome of `llm_handler.get_response` as observed by `interact`. -/
inductive LLMResp where
  | failure
  | raw (s : String)
  | obj (o : InteractObj)
deriving DecidableEq

/-- Step 6 of `interact`: the synthesized fallback structured result for a
plain-string response. -/
def fallbackObj (character : Character) (s : String) : InteractObj :=
  { name := some character.name
    personality := some character.personality
    mood := some character.mood
    dialogue := some s
    emotion := some "neutral"
    action := some ""
    memory_note := some "LLM did not return valid JSON."
    choices := some []
    relationships := some character.relationships
    traits := some character.traits
    subconscious_traits := some character.subconscious_traits }

/-- The response envelope returned by a successful `interact` call
(step 13), with the character-state snapshot flattened into fields. -/
structure Envelope where
  dialogue : String
  audio_path : String
  conversation_id : String
  mood : String
  emotion : String
  relationships : List (String × Rat)
  traits : List String
  subconscious_traits : List String
  choices : List String
  action : String
  memory_note : String
deriving DecidableEq

/-- What an `interact` call hands back: an explicit error payload
(`return {"error": ...}`) or the dialogue envelope.  Both are returned
objects; no exception escapes. -/
inductive InteractResult where
  | err (msg : String)
  | ok (env : Envelope)
deriving DecidableEq

/-- Dialogue of the envelope when one was returned. -/
def InteractResult.dialogueOf : InteractResult → Option String
  | .ok e => some e.dialogue
  | .err _ => none

/-- Memory note of the envelope when one was returned. -/
def InteractResult.memoryNoteOf : InteractResult → Option String
  | .ok e => some e.memory_note
  | .err _ => none

/-- Steps 7-13 of `interact`, after a truthy generation result `o` has
been obtained for character `character` in conversation `convOid`. -/
def interactProcess (st1 : Store) (character : Character)
    (character_id text : String) (convOid : Nat) (o : InteractObj)
    (tts : String → String → String) : InteractResult × Store :=
  let dialogue := o.dialogue.getD "I am speechless."
  let new_mood := o.mood.getD character.mood
  let emotion := o.emotion.getD character.mood
  let memory_note := o.memory_note.getD ""
  let choices := o.choices.getD []
  let updated_relationships := o.relationships.getD character.relationships
  let updated_traits := o.traits.getD character.traits
  let updated_subconscious :=
    o.subconscious_traits.getD character.subconscious_traits
  let (st2, pid) := insertMsg st1 (fun i ts =>
    { id := i, conversation_id := oidStr convOid, timestamp := ts
      speaker_type := "player", speaker_id := "player", content := text
      emotion := "n/a", context_tags := [], choices := []
      director_control := false, is_game_over := none
      triggering_choice := none })
  let actionTags :=
    match o.action with
    | some a => if a = "" then [] else [("action", a)]
    | none => []
  let memTags := if memory_note = "" then [] else [("memory_note", memory_note)]
  let (st3, cmid) := insertMsg st2 (fun i ts =>
    { id := i, conversation_id := oidStr convOid, timestamp := ts
      speaker_type := "character", speaker_id := character_id
      content := dialogue, emotion := emotion
      context_tags := actionTags ++ memTags, choices := []
      director_control := false, is_game_over := none
      triggering_choice := none })
  let st4 := { st3 with
    conversations := st3.conversations.map (fun (cv : Conversation) =>
      if cv.id == BVal.oid convOid then
        { cv with messages := cv.messages ++ [pid, cmid] }
      else cv) }
  -- step 10 (`asyncio.create_task` summary refresh) is fire-and-forget:
  -- it has not run when the call returns, so it is not part of this
  -- state transition.
  let st5 := { st4 with
    characters := st4.characters.map (fun (c : Character) =>
      if c.id == character_id then
        { c with
            mood := new_mood
            relationships := updated_relationships
            traits := updated_traits
            subconscious_traits := updated_subconscious }
      else c) }
  (.ok
    { dialogue := dialogue
      audio_path := tts dialogue character.voice_type
      conversation_id := oidStr convOid
      mood := new_mood
      emotion := emotion
      relationships := updated_relationships
      traits := updated_traits
      subconscious_traits := updated_subconscious
      choices := choices
      action := o.action.getD ""
      memory_note := memory_note }, st5)

/-- `CharacterEngine.interact`: look up the character (`NotFound` error
payload when absent), resolve or lazily create the conversation, call the
generation service (outcome supplied as `llm`), degrade a plain-string
result to the synthesized fallback, and otherwise persist the two
messages, update the conversation and the character, and synthesize
audio (`tts` is the external TTS collaborator). -/
def interact (st : Store) (character_id text : String)
    (cidOpt : Option Nat) (llm : LLMResp)
    (tts : String → String → String) : InteractResult × Store :=
  match st.characters.find? (fun c => c.id == character_id) with
  | none => (.err "Character not found.", st)
  | some character =>
      let resolved : Option (Nat × Store) :=
        match cidOpt with
        | some n =>
            if st.conversations.any (fun cv => cv.id == BVal.oid n) then
              some (n, st)
            else none
        | none =>
            some (st.nextId,
              { st with
                  conversations := st.conversations ++
                    [{ id := BVal.oid st.nextId, timestamp := st.clock
                       participants := ["player", character_id]
                       messages := [], summary := "" }]
                  nextId := st.nextId + 1
                  clock := st.clock + 1 })
      match resolved with
      | none => (.err "Conversation not found.", st)
      | some (convOid, st1) =>
          match llm with
          | .failure => (.err "Failed to get response from LLM.", st1)
          | .raw s =>
              if s = "" then (.err "Failed to get response from LLM.", st1)
              else
                interactProcess st1 character character_id text convOid
                  (fallbackObj character s) tts
          | .obj o =>
              if o.isEmptyObj then
                (.err "Failed to get response from LLM.", st1)
              else
                interactProcess st1 character character_id text convOid o tts

/-! ## GameLoop (`game_loop.py`) -/

/-- The narrative orchestrator's state: the shared store plus the
`is_running` flag toggled by `start()` / `stop()`. -/
structure LoopState where
  store : Store
  is_running : Bool
deriving DecidableEq

/-- A `{speaker, line}` item of the premiere `dialogue` array; fields are
absent when the generated dict lacks the key. -/
structure DItem where
  speaker : Option String := none
  line : Option String := none
deriving DecidableEq

/-- The generation outcome for `start_story`: `None`, a plain string, or
a parsed dict with the premiere keys. -/
inductive StoryResp where
  | failure
  | raw (s : String)
  | obj (title : Option String) (dialogue : Option (List DItem))
        (choices : Option (List String))
deriving DecidableEq

/-- The value `start_story` returns, a dict with optional keys: the
no-contestants path returns `{"error", "choices"}`, the success path
`{"title", "dialogue", "choices", "is_game_over"}`, the failure path
`{"dialogue", "choices", "is_game_over"}`. -/
structure StoryResult where
  error : Option String := none
  title : Option String := none
  dialogue_list : List DItem := []
  dialogue_text : Option String := none
  choices : List String := []
  is_game_over : Option Bool := none
deriving DecidableEq

/-- The markdown log `start_story` aggregates: a heading line followed by
one `**speaker**: line` entry per dialogue item, joined by newlines. -/
def renderPremiere (title : String) (items : List DItem) : String :=
  String.intercalate "\n"
    (("# " ++ title ++ "\n") ::
      items.map (fun it =>
        "**" ++ it.speaker.getD "Unknown" ++ "**: " ++ it.line.getD ""))

/-- `GameLoop.start_story`: refuse without contestants; otherwise, on a
dict response, persist one aggregate director-control message carrying
the markdown log, the choices and `is_game_over: False`, and on any other
response persist the same shape of message with an error/raw-string
content and empty choices. -/
def start_story (st : Store) (resp : StoryResp) : StoryResult × Store :=
  if st.characters.isEmpty then
    ({ error := some "Cannot start the season premiere without any contestants."
       choices := [] }, st)
  else
    match resp with
    | .obj t d c =>
        let title := t.getD "The Premiere"
        let dialogue_list := d.getD []
        let choices := c.getD []
        let content := renderPremiere title dialogue_list
        let (st1, _) := insertMsg st (fun i ts =>
          { id := i, conversation_id := "SYSTEM_SEASON_START", timestamp := ts
            speaker_type := "system", speaker_id := "NARRATOR"
            content := content, emotion := "dramatic", context_tags := []
            choices := choices, director_control := true
            is_game_over := some false, triggering_choice := none })
        ({ title := some title, dialogue_list := dialogue_list
           choices := choices, is_game_over := some false }, st1)
    | other =>
        let dialogue :=
          match other with
          | .raw s =>
              if s = "" then
                "Error: The AI narrator provided an invalid response. Please try again."
              else s
          | _ =>
              "Error: The AI narrator provided an invalid response. Please try again."
        let (st1, _) := insertMsg st (fun i ts =>
          { id := i, conversation_id := "SYSTEM_SEASON_START", timestamp := ts
            speaker_type := "system", speaker_id := "NARRATOR"
            content := dialogue, emotion := "dramatic", context_tags := []
            choices := [], director_control := true
            is_game_over := some false, triggering_choice := none })
        ({ dialogue_text := some dialogue, choices := []
           is_game_over := some false }, st1)

/-- A `{speaker, line, emotion?}` item of a progression `scene` array. -/
structure SItem where
  speaker : Option String := none
  line : Option String := none
  emotion : Option String := none
deriving DecidableEq

/-- The generation outcome for `progress_story`. -/
inductive SceneResp where
  | failure
  | raw (s : String)
  | obj (scene : Option (List SItem)) (choices : Option (List String))
        (igo : Option Bool)
deriving DecidableEq

/-- The value `progress_story` returns; `is_game_over` is absent on the
no-contestants path. -/
structure ProgressResult where
  dialogue : String
  choices : List String
  is_game_over : Option Bool
deriving DecidableEq

/-- The chat-style markdown `progress_story` accumulates: one line per
scene message, with the `(*emotion*)` marker only for a truthy emotion. -/
def renderScene (scene : List SItem) : String :=
  String.join (scene.map (fun m =>
    let speaker := m.speaker.getD "Unknown"
    let line := m.line.getD ""
    match m.emotion with
    | some e =>
        if e = "" then "**" ++ speaker ++ "**: " ++ line ++ "\n"
        else "**" ++ speaker ++ "** (*" ++ e ++ "*): " ++ line ++ "\n"
    | none => "**" ++ speaker ++ "**: " ++ line ++ "\n"))

/-- `GameLoop.progress_story`: refuse without contestants (no insert);
otherwise render the scene (or the error text for a non-dict response),
call `stop()` when `is_game_over` is true, and persist one aggregate
director-control message - note the persisted document carries `choices`
and `triggering_choice` but no `is_game_over` field. -/
def progress_story (ls : LoopState) (director_choice : String)
    (resp : SceneResp) : ProgressResult × LoopState :=
  if ls.store.characters.isEmpty then
    ({ dialogue := "Cannot progress the story without any contestants."
       choices := [], is_game_over := none }, ls)
  else
    let rendered :=
      match resp with
      | .obj s c g => (renderScene (s.getD []), c.getD [], g.getD false)
      | _ =>
          ("Error: The AI writer provided an invalid response. Please try again.",
            ([] : List String), false)
    let dialogue := rendered.1
    let choices := rendered.2.1
    let is_game_over := rendered.2.2
    let running1 := if is_game_over then false else ls.is_running
    let (st1, _) := insertMsg ls.store (fun i ts =>
      { id := i, conversation_id := "SYSTEM_STORY_PROGRESS", timestamp := ts
        speaker_type := "system", speaker_id := "NARRATOR"
        content := dialogue, emotion := "dramatic", context_tags := []
        choices := choices, director_control := true
        is_game_over := none, triggering_choice := some director_choice })
    ({ dialogue := dialogue, choices := choices
       is_game_over := some is_game_over },
      { store := st1, is_running := running1 })

/-- `find_one({"director_control": True}, sort=[("timestamp", -1)])`:
the director-control message with the maximal timestamp. -/
def latestDirectorMsg (msgs : List Message) : Option Message :=
  (msgs.filter (fun m => m.director_control)).foldl
    (fun acc m =>
      match acc with
      | none => some m
      | some a => if a.timestamp < m.timestamp then some m else some a)
    none

/-- The projection `get_latest_story_segment` returns. -/
structure Segment where
  dialogue : String
  choices : List String
  is_game_over : Bool
deriving DecidableEq

/-- `GameLoop.get_latest_story_segment`: project the most recent
director-control message, defaulting every field - in particular
`is_game_over` defaults to `False` when the document lacks the key. -/
def get_latest_story_segment (st : Store) : Segment :=
  match latestDirectorMsg st.messages with
  | none =>
      { dialogue := "The story hasn't started yet.", choices := []
        is_game_over := false }
  | some m =>
      { dialogue := m.content, choices := m.choices
        is_game_over := m.is_game_over.getD false }

/-- The generation outcome for `summarize_conversation` as observed by
`manage_history`: `None`, a plain string, or a parsed dict with the
summary keys. -/
inductive SummResp where
  | failure
  | raw (s : String)
  | obj (summary : Option String) (key_points : Option (List String))
        (sentiment : Option String)
deriving DecidableEq

/-- The number of messages stored for a conversation
(`count_documents({"conversation_id": conversation_id})`). -/
def convMsgCount (st : Store) (conversation_id : String) : Nat :=
  (st.messages.filter (fun m => m.conversation_id == conversation_id)).length

/-- `GameLoop.manage_history`: when the message count is a positive
multiple of 20, request a summary and persist it on the conversation
whose `_id` equals the string `conversation_id` (a filter that can never
match an ObjectId-keyed conversation); otherwise do nothing.  The boolean
records whether the summarization call was triggered. -/
def manage_history (st : Store) (conversation_id : String)
    (resp : SummResp) : Store × Bool :=
  let cnt := convMsgCount st conversation_id
  if 0 < cnt ∧ cnt % 20 = 0 then
    let st1 :=
      match resp with
      | .failure => st
      | .raw s =>
          if s = "" then st
          else
            { st with conversations := st.conversations.map (fun cv =>
                if cv.id == BVal.str conversation_id then
                  { cv with summary := s }
                else cv) }
      | .obj s k sn =>
          if s == none && k == none && sn == none then st
          else
            { st with conversations := st.conversations.map (fun cv =>
                if cv.id == BVal.str conversation_id then
                  { cv with
                      summary := s.getD ""
                      summary_data := some (s, k, sn)
                      key_points := some (k.getD [])
                      sentiment := some (sn.getD "neutral") }
                else cv) }
    (st1, true)
  else (st, false)

/-! ## Concrete fixtures used by witnesses and counterexamples -/

/-- The empty store (fresh season, nothing seeded). -/
def emptyStore : Store :=
  { characters := [], conversations := [], messages := [],
    relationships := [], nextId := 0, clock := 0 }

/-- A sample cast member. -/
def heroChar : Character :=
  { id := "hero", name := "Hero", personality := ["bold"],
    background := "sailor", traits := ["brave"], voice_type := "baritone",
    ethnicity := "islander", religion := "none", mental_illness := [],
    subconscious_traits := ["dreamer"], mood := "neutral",
    relationships := [], technical_iq := 100, general_iq := 100 }

/-- A store holding exactly one cast member. -/
def oneCharStore : Store := { emptyStore with characters := [heroChar] }

/-- A trivial TTS collaborator. -/
def ttsOracle : String → String → String := fun _ _ => "output.wav"

/-- A structured interact response whose `dialogue` key is present but
holds the empty string. -/
def c1obj : InteractObj :=
  { name := some "Hero", dialogue := some "", emotion := some "calm" }

/-- A sample attribute draw. -/
def d0 : Draw :=
  { personality := ["bold"], background := "drifter", traits := ["keen"],
    voice_type := "alto", ethnicity := "islander", religion := "none",
    mental_illness := [], subconscious_traits := ["dreamer"],
    technical_iq := 90, general_iq := 110 }

/-- A slugifier whose whole range is the single id `drifter` - the
situation of a pool so small that every drawable name has the same slug. -/
def constSlug : String → String := fun _ => "drifter"

/-- A sampler that always produces the same draw (every pool has one
drawable combination). -/
def constDraws : Nat → Draw := fun _ => d0

/-- A store in which the only drawable id is already taken. -/
def drifterStore : Store :=
  { emptyStore with characters := [{ heroChar with id := "drifter" }] }

/-- The identity slugifier (names used directly as ids). -/
def idSlug : String → String := fun s => s

/-- A sampler stream for three creation calls with pairwise distinct
resulting names. -/
def c5draws : Nat → Nat → Draw := fun k _ =>
  { d0 with background := ["alpha", "beta", "gamma"].getD k "omega" }

/-- The result of `create_characters(3)` from the empty store under the
fixture oracles. -/
def c5res : Store × List Character :=
  (create_characters idSlug c5draws 1 0 3 emptyStore).getD (emptyStore, [])

/-- A premiere dialogue array with two generated lines. -/
def c2dialogue : List DItem :=
  [{ speaker := some "Narrator", line := some "Welcome." },
   { speaker := some "Hero", line := some "Hi." }]

/-- A successful premiere generation with two dialogue lines. -/
def c2resp : StoryResp :=
  .obj (some "Premiere") (some c2dialogue) (some ["Choice A"])

/-- A progression response that ends the game. -/
def respGO : SceneResp :=
  .obj (some [{ speaker := some "A", line := some "bye" }]) (some [])
    (some true)

/-- An ordinary progression response (game not over). -/
def respNext : SceneResp :=
  .obj (some [{ speaker := some "A", line := some "hi" }]) (some ["x"])
    (some false)

/-- A running season with one cast member. -/
def c6start : LoopState := { store := oneCharStore, is_running := true }

/-- First call: the director's choice leads to a game-over scene. -/
def c6run1 : ProgressResult × LoopState := progress_story c6start "end it" respGO

/-- Second call, issued after the game is over and before any new
`start()`/`start_story()`. -/
def c6run2 : ProgressResult × LoopState := progress_story c6run1.2 "again" respNext

/-- A season whose loop has already been stopped. -/
def c6pausedLoop : LoopState := { store := oneCharStore, is_running := false }

/-- A game-ending progression response for the projection check. -/
def c7resp : SceneResp :=
  .obj (some [{ speaker := some "Narrator", line := some "The end." }])
    (some []) (some true)

/-- A single progression call that ends the game. -/
def c7run : ProgressResult × LoopState :=
  progress_story { store := oneCharStore, is_running := true } "finale" c7resp

/-- A minimal message document for count fixtures. -/
def mkMsg (i : Nat) (cid : String) : Message :=
  { id := i, conversation_id := cid, timestamp := i,
    speaker_type := "player", speaker_id := "player", content := "m",
    emotion := "n/a", context_tags := [], choices := [],
    director_control := false, is_game_over := none,
    triggering_choice := none }

/-- A conversation with 5 stored messages (not a multiple of 20). -/
def c9shortStore : Store :=
  { emptyStore with messages := (List.range 5).map (fun i => mkMsg i "conv1") }

/-- A conversation with exactly 20 stored messages. -/
def c9fullStore : Store :=
  { emptyStore with messages := (List.range 20).map (fun i => mkMsg i "conv1") }

/-- A parse oracle that always fails (`json.loads` raising on any text). -/
def noParse : List Char → Option Unit := fun _ => none

/-! ## Helper lemmas -/

theorem genLoop_none_of_exhausted (slug : String → String)
    (taken : List String) (draws : Nat → Draw)
    (h : ∀ i, taken.contains (slug (drawName (draws i))) = true) :
    ∀ fuel i, genLoop slug taken draws i fuel = none := by
  intro fuel
  induction fuel with
  | zero => intro i; rfl
  | succ n ih =>
      intro i
      simp only [genLoop, h i, if_true]
      exact ih (i + 1)

theorem length_le_of_nodup_lt (v : List Int) (n : Nat) (hnd : v.Nodup)
    (hmem : ∀ i ∈ v, 0 ≤ i ∧ i < (n : Int)) : v.length ≤ n := by
  have hmap : (v.map Int.toNat).Nodup := by
    refine List.Nodup.map_on ?_ hnd
    intro x hx y hy hxy
    have hx0 := (hmem x hx).1
    have hy0 := (hmem y hy).1
    omega
  have hsub : (v.map Int.toNat).toFinset ⊆ Finset.range n := by
    intro a ha
    rw [List.mem_toFinset, List.mem_map] at ha
    obtain ⟨i, hi, rfl⟩ := ha
    have := hmem i hi
    rw [Finset.mem_range]
    omega
  have hcard := Finset.card_le_card hsub
  rw [Finset.card_range, List.toFinset_card_of_nodup hmap,
    List.length_map] at hcard
  exact hcard

/-! ## Claim C3 -/

/-- Claim C3: generated character ids are pairwise distinct (the retry
loop only accepts an id absent from the `characters` collection), but the
second half of the claim fails on the code: against an exhausted pool -
every drawable name slugifying to an already-taken id - `create_character`
never terminates with an error, it simply never leaves the retry loop.
Formally: for every observation bound `fuel`, the loop has produced
neither a character nor an error. -/
theorem c3_exhausted_pool_loops_forever (slug : String → String)
    (draws : Nat → Draw) (st : Store)
    (h : ∀ i, (st.characters.map (fun c => c.id)).contains
      (slug (drawName (draws i))) = true) :
    ∀ fuel, create_character slug draws fuel st = none := by
  intro fuel
  unfold create_character
  rw [genLoop_none_of_exhausted slug _ draws h fuel 0]

/-- Witness for C3: a concrete store whose single character already owns
the only drawable slug; seven observed iterations produce nothing. -/
theorem c3_witness :
    create_character constSlug constDraws 7 drifterStore = none :=
  c3_exhausted_pool_loops_forever constSlug constDraws drifterStore
    (fun _ => rfl) 7

/-! ## Claim C4 -/

/-- Claim C4 (amended): with 4 items and service indices `[5, 1, 2]` the
result is exactly `[items[1], items[2]]` (the invalid index is dropped,
not substituted); a malformed/absent response falls back to the first
`top_k` items; the result length is always at most `top_k`; and it is at
most `len(items)` whenever the returned indices are pairwise distinct -
the unrestricted bound of the original claim fails because duplicate
valid indices are kept (see the counterexample). -/
theorem c4_retrieve_context_amended {α : Type} (ctx : List α) (k : Nat)
    (resp : RankResp) (l : List Int) (a b c d : α) (hnd : l.Nodup) :
    retrieve_context [a, b, c, d] 3 (.ok [5, 1, 2]) = [b, c] ∧
    retrieve_context ctx k .bad = ctx.take k ∧
    (retrieve_context ctx k resp).length ≤ k ∧
    (retrieve_context ctx k (.ok l)).length ≤ ctx.length := by
  refine ⟨rfl, ?_, ?_, ?_⟩
  · unfold retrieve_context
    by_cases h : ctx.isEmpty
    · rw [if_pos h]
      rw [List.isEmpty_iff] at h
      rw [h, List.take_nil]
    · rw [if_neg h]
      rcases le_total k ctx.length with hk | hk
      · rw [min_eq_left hk]
      · rw [min_eq_right hk, List.take_length, List.take_of_length_le hk]
  · unfold retrieve_context
    by_cases h : ctx.isEmpty
    · rw [if_pos h]; exact Nat.zero_le k
    · rw [if_neg h]
      cases resp with
      | ok indices =>
          calc ((((indices.filter _).take k).filterMap
                  (fun i => ctx.get? i.toNat))).length
              ≤ ((indices.filter _).take k).length :=
                List.length_filterMap_le _ _
            _ ≤ k := List.length_take_le _ _
      | bad =>
          calc (ctx.take (min k ctx.length)).length
              ≤ min k ctx.length := List.length_take_le _ _
            _ ≤ k := min_le_left _ _
  · unfold retrieve_context
    by_cases h : ctx.isEmpty
    · rw [if_pos h]; exact Nat.zero_le _
    · rw [if_neg h]
      have hvalid : (l.filter
          (fun i => decide (0 ≤ i) && decide (i < (ctx.length : Int)))).length
          ≤ ctx.length := by
        refine length_le_of_nodup_lt _ _ (hnd.filter _) ?_
        intro i hi
        rw [List.mem_filter] at hi
        have hcond := hi.2
        rw [Bool.and_eq_true, decide_eq_true_eq, decide_eq_true_eq] at hcond
        exact hcond
      calc (((l.filter _).take k).filterMap
              (fun i => ctx.get? i.toNat)).length
          ≤ ((l.filter _).take k).length := List.length_filterMap_le _ _
        _ ≤ (l.filter _).length := by
            rw [List.length_take]; exact min_le_right _ _
        _ ≤ ctx.length := hvalid

/-- Counterexample for C4: duplicate valid indices are kept, so the
result can be longer than the item list (`[0,0,0]` against 2 items yields
3 results), refuting the unconditional `≤ len(items)` bound. -/
theorem c4_counterexample :
    retrieve_context ["a", "b"] 3 (.ok [0, 0, 0]) = ["a", "a", "a"] ∧
    (["a", "b"] : List String).length <
      (retrieve_context ["a", "b"] 3 (.ok [0, 0, 0])).length :=
  ⟨rfl, by decide⟩

/-- Witness for C4 at concrete inputs. -/
theorem c4_witness :
    retrieve_context [10, 20, 30, 40] 3 (.ok [5, 1, 2]) = [20, 30] ∧
    retrieve_context [10, 20, 30, 40] 2 .bad = List.take 2 [10, 20, 30, 40] ∧
    (retrieve_context [10, 20, 30, 40] 2 (.ok [3, 3])).length ≤ 2 ∧
    (retrieve_context [10, 20, 30, 40] 2 (.ok [3, 1])).length ≤
      [10, 20, 30, 40].length :=
  c4_retrieve_context_amended [10, 20, 30, 40] 2 (.ok [3, 3]) [3, 1]
    10 20 30 40 (by decide)

/-! ## Claim C9 -/

/-- Claim C9: `manage_history` triggers summarization exactly when the
message count of the conversation is a positive multiple of 20, and for
every other count it performs no summarization and leaves the store (in
particular every conversation summary) unchanged. -/
theorem c9_manage_history_trigger (st : Store) (cid : String)
    (resp : SummResp) :
    ((manage_history st cid resp).2 = true ↔
      0 < convMsgCount st cid ∧ convMsgCount st cid % 20 = 0) ∧
    ((manage_history st cid resp).2 = false →
      (manage_history st cid resp).1 = st) := by
  unfold manage_history
  by_cases h : 0 < convMsgCount st cid ∧ convMsgCount st cid % 20 = 0
  · rw [if_pos h]
    exact ⟨by simp [h], by intro hc; simp at hc⟩
  · rw [if_neg h]
    exact ⟨by simp [h], fun _ => rfl⟩

/-- Witness for C9: 5 messages leave the store untouched, 20 messages
trigger summarization. -/
theorem c9_witness :
    (manage_history c9shortStore "conv1" .failure).1 = c9shortStore ∧
    (manage_history c9fullStore "conv1" .failure).2 = true :=
  ⟨(c9_manage_history_trigger c9shortStore "conv1" .failure).2 (by decide),
   (c9_manage_history_trigger c9fullStore "conv1" .failure).1.mpr (by decide)⟩

/-! ## Claim C8 -/

theorem findFence_cons_none {c : Char} {cs : List Char}
    (h : findFence (c :: cs) = none) :
    isFence3 (c :: cs) = false ∧ findFence cs = none := by
  by_cases hf : isFence3 (c :: cs) = true
  · rw [findFence, if_pos hf] at h
    simp at h
  · have hf' : isFence3 (c :: cs) = false := by
      cases hb : isFence3 (c :: cs)
      · rfl
      · exact absurd hb hf
    rw [findFence, if_neg hf] at h
    refine ⟨hf', ?_⟩
    cases hcs : findFence cs with
    | none => rfl
    | some pr => rw [hcs] at h; simp at h

theorem isFence3_append_bb (x : Char) (xs rest : List Char) :
    isFence3 (x :: (xs ++ (fence3 ++ rest))) =
      isFence3 (x :: (xs ++ [btick, btick])) := by
  cases xs with
  | nil => simp [isFence3, fence3]
  | cons y ys =>
      cases ys with
      | nil => simp [isFence3, fence3]
      | cons z zs => simp [isFence3]

theorem findFence_append (pre rest : List Char)
    (h : hasFence (pre ++ [btick, btick]) = false) :
    findFence (pre ++ (fence3 ++ rest)) = some (pre, rest) := by
  induction pre with
  | nil =>
      show findFence (btick :: btick :: btick :: rest) = some ([], rest)
      rw [findFence]
      simp [isFence3]
  | cons x xs ih =>
      have hnone : findFence (x :: (xs ++ [btick, btick])) = none := by
        rw [hasFence, List.cons_append] at h
        cases hc : findFence (x :: (xs ++ [btick, btick]))
        · rfl
        · rw [hc] at h; simp at h
      obtain ⟨hf3, htail⟩ := findFence_cons_none hnone
      have h' : hasFence (xs ++ [btick, btick]) = false := by
        rw [hasFence, htail]; rfl
      show findFence (x :: (xs ++ (fence3 ++ rest))) = some (x :: xs, rest)
      rw [findFence, isFence3_append_bb, hf3]
      simp only [Bool.false_eq_true, if_false, ih h', Option.map_some']

theorem extract_json_no_fence (u : List Char) (hu : hasFence u = false) :
    extract_json u = u := by
  cases hf : findFence u with
  | none => simp [extract_json, hf]
  | some pr => rw [hasFence, hf] at hu; simp at hu

theorem dropWhile_length_le (p : Char → Bool) (l : List Char) :
    (l.dropWhile p).length ≤ l.length := by
  induction l with
  | nil => simp
  | cons a l ih =>
      rw [List.dropWhile_cons]
      by_cases h : p a = true
      · rw [if_pos h]
        exact le_trans ih (Nat.le_succ _)
      · rw [if_neg h]

theorem dropWhile_ws_fence (mid post : List Char)
    (hl : mid.dropWhile isWS = mid) :
    (mid ++ (fence3 ++ post)).dropWhile isWS = mid ++ (fence3 ++ post) := by
  cases mid with
  | nil =>
      show (btick :: btick :: btick :: post).dropWhile isWS =
        btick :: btick :: btick :: post
      have hb : isWS btick = false := by decide
      simp [List.dropWhile_cons, hb]
  | cons m ms =>
      have hm : isWS m = false := by
        by_cases hw : isWS m = true
        · exfalso
          rw [List.dropWhile_cons, if_pos hw] at hl
          have hle := dropWhile_length_le isWS ms
          have hlen := congrArg List.length hl
          simp only [List.length_cons] at hlen
          omega
        · cases hb : isWS m
          · rfl
          · exact absurd hb hw
      rw [List.cons_append, List.dropWhile_cons, hm]
      simp

theorem rstrip_of_clean (mid : List Char)
    (htws : mid.reverse.dropWhile isWS = mid.reverse) : rstrip mid = mid := by
  rw [rstrip, htws, List.reverse_reverse]

theorem extract_json_first_block (pre mid post : List Char)
    (hpre : hasFence (pre ++ [btick, btick]) = false)
    (hmid : hasFence (mid ++ [btick, btick]) = false)
    (hjson : startsWithJson (mid ++ (fence3 ++ post)) = false)
    (hlws : mid.dropWhile isWS = mid)
    (htws : mid.reverse.dropWhile isWS = mid.reverse) :
    extract_json (pre ++ (fence3 ++ (mid ++ (fence3 ++ post)))) = mid := by
  have h1 := findFence_append pre (mid ++ (fence3 ++ post)) hpre
  have h2 := findFence_append mid post hmid
  have hjt : dropJsonTag (mid ++ (fence3 ++ post)) = mid ++ (fence3 ++ post) := by
    rw [dropJsonTag, hjson]
    simp
  rw [extract_json, h1]
  simp only [hjt, dropWhile_ws_fence mid post hlws, h2]
  exact rstrip_of_clean mid htws

/-- Claim C8: under `want_json` the client extracts the content of the
first fenced code block found anywhere in the response when a complete
block exists (optional `json` tag and surrounding whitespace stripped),
extracts the full response text when the text has no fence, and then
parses the extracted text, returning the extracted-but-unparsed text (not
an exception) when the parse fails - so the caller always receives either
a structured value or a string. -/
theorem c8_json_extraction (J : Type) (parse : List Char → Option J)
    (t u pre mid post : List Char)
    (hu : hasFence u = false)
    (hpre : hasFence (pre ++ [btick, btick]) = false)
    (hmid : hasFence (mid ++ [btick, btick]) = false)
    (hjson : startsWithJson (mid ++ (fence3 ++ post)) = false)
    (hlws : mid.dropWhile isWS = mid)
    (htws : mid.reverse.dropWhile isWS = mid.reverse) :
    extract_json u = u ∧
    extract_json (pre ++ (fence3 ++ (mid ++ (fence3 ++ post)))) = mid ∧
    get_response_json parse t =
      (match parse (extract_json t) with
       | some v => JsonOutcome.structured v
       | none => JsonOutcome.raw (extract_json t)) :=
  ⟨extract_json_no_fence u hu,
   extract_json_first_block pre mid post hpre hmid hjson hlws htws,
   rfl⟩

/-- Witness for C8 at concrete strings: a response with one fenced block
yields the block content, a fenceless response is used whole, and a parse
failure produces the raw extracted text. -/
theorem c8_witness :
    extract_json ("no fence here".toList) = "no fence here".toList ∧
    extract_json ("Sure thing: ".toList ++ (fence3 ++ ("[1, 42]".toList ++
      (fence3 ++ " hope that helps".toList)))) = "[1, 42]".toList ∧
    get_response_json noParse ("plain text".toList) =
      JsonOutcome.raw (extract_json ("plain text".toList)) :=
  c8_json_extraction Unit noParse ("plain text".toList) ("no fence here".toList)
    ("Sure thing: ".toList) ("[1, 42]".toList) (" hope that helps".toList)
    (by decide) (by decide) (by decide) (by decide) (by decide) (by decide)

/-! ## Claims C1 and C10 -/

/-- Claim C1 (amended): when the character exists (and the given
conversation, if any, exists), `interact` returns: on a plain-string
generation result, an envelope whose `dialogue` equals the raw text and
whose memory note is the parse-fallback sentinel; on a structured result
carrying a `dialogue` key, an envelope whose dialogue is exactly that
value - hence non-empty except when the response itself carries an empty
string (see the counterexample); on a structured result without a
`dialogue` key, the placeholder text; and on a total generation failure
an explicit error payload object rather than a thrown error. -/
theorem c1_interact_dialogue (st : Store) (character_id text : String)
    (cidOpt : Option Nat) (tts : String → String → String) (ch : Character)
    (hch : st.characters.find? (fun c => c.id == character_id) = some ch)
    (hconv : ∀ n, cidOpt = some n →
      st.conversations.any (fun cv => cv.id == BVal.oid n) = true) :
    (∀ s, s ≠ "" →
      (interact st character_id text cidOpt (.raw s) tts).1.dialogueOf =
        some s ∧
      (interact st character_id text cidOpt (.raw s) tts).1.memoryNoteOf =
        some "LLM did not return valid JSON.") ∧
    (∀ o : InteractObj, ∀ d : String, o.dialogue = some d →
      (interact st character_id text cidOpt (.obj o) tts).1.dialogueOf =
        some d) ∧
    (∀ o : InteractObj, o.isEmptyObj = false → o.dialogue = none →
      (interact st character_id text cidOpt (.obj o) tts).1.dialogueOf =
        some "I am speechless.") ∧
    (interact st character_id text cidOpt .failure tts).1 =
      .err "Failed to get response from LLM." := by
  cases cidOpt with
  | none =>
      refine ⟨?_, ?_, ?_, ?_⟩
      · intro s hs
        constructor
        · simp [interact, hch, hs, interactProcess, insertMsg, fallbackObj,
            InteractResult.dialogueOf]
        · simp [interact, hch, hs, interactProcess, insertMsg, fallbackObj,
            InteractResult.memoryNoteOf]
      · intro o d hd
        have hne : o.isEmptyObj = false := by
          simp [InteractObj.isEmptyObj, hd]
        simp [interact, hch, hne, interactProcess, insertMsg, hd,
          InteractResult.dialogueOf]
      · intro o hne hd
        simp [interact, hch, hne, interactProcess, insertMsg, hd,
          InteractResult.dialogueOf]
      · simp [interact, hch]
  | some n =>
      have hn := hconv n rfl
      refine ⟨?_, ?_, ?_, ?_⟩
      · intro s hs
        constructor
        · simp [interact, hch, hn, hs, interactProcess, insertMsg,
            fallbackObj, InteractResult.dialogueOf]
        · simp [interact, hch, hn, hs, interactProcess, insertMsg,
            fallbackObj, InteractResult.memoryNoteOf]
      · intro o d hd
        have hne : o.isEmptyObj = false := by
          simp [InteractObj.isEmptyObj, hd]
        simp [interact, hch, hn, hne, interactProcess, insertMsg, hd,
          InteractResult.dialogueOf]
      · intro o hne hd
        simp [interact, hch, hn, hne, interactProcess, insertMsg, hd,
          InteractResult.dialogueOf]
      · simp [interact, hch, hn]

/-- Counterexample for C1: a structured response with `"dialogue": ""`
produces an envelope whose dialogue is empty, although the character
exists - refuting the unconditional non-empty-dialogue claim. -/
theorem c1_counterexample :
    oneCharStore.characters.find? (fun c => c.id == "hero") = some heroChar ∧
    (interact oneCharStore "hero" "hi" none (.obj c1obj) ttsOracle).1.dialogueOf =
      some "" :=
  ⟨rfl, rfl⟩

/-- Witness for C1 at concrete inputs: the plain-string fallback and the
total-failure error payload. -/
theorem c1_witness :
    ((interact oneCharStore "hero" "hi" none (.raw "Hello!") ttsOracle).1.dialogueOf =
        some "Hello!" ∧
      (interact oneCharStore "hero" "hi" none (.raw "Hello!") ttsOracle).1.memoryNoteOf =
        some "LLM did not return valid JSON.") ∧
    (interact oneCharStore "hero" "hi" none .failure ttsOracle).1 =
      .err "Failed to get response from LLM." :=
  ⟨(c1_interact_dialogue oneCharStore "hero" "hi" none ttsOracle heroChar rfl
      (fun _ h => nomatch h)).1 "Hello!" (by decide),
   (c1_interact_dialogue oneCharStore "hero" "hi" none ttsOracle heroChar rfl
      (fun _ h => nomatch h)).2.2.2⟩

/-- Claim C10: when `interact` is called without a conversation id for an
existing character and the generation client returns nothing, the call
returns the error payload, yet the freshly created conversation - with
empty message list and empty summary - remains persisted; no message is
stored and the characters (hence all character fields) and relationships
are untouched. -/
theorem c10_failure_keeps_fresh_conversation (st : Store)
    (character_id text : String) (tts : String → String → String)
    (ch : Character)
    (hch : st.characters.find? (fun c => c.id == character_id) = some ch) :
    (interact st character_id text none .failure tts).1 =
      .err "Failed to get response from LLM." ∧
    (interact st character_id text none .failure tts).2.conversations =
      st.conversations ++
        [{ id := BVal.oid st.nextId, timestamp := st.clock,
           participants := ["player", character_id], messages := [],
           summary := "" }] ∧
    (interact st character_id text none .failure tts).2.messages =
      st.messages ∧
    (interact st character_id text none .failure tts).2.characters =
      st.characters ∧
    (interact st character_id text none .failure tts).2.relationships =
      st.relationships := by
  refine ⟨?_, ?_, ?_, ?_, ?_⟩ <;> simp [interact, hch]

/-- Witness for C10 at a concrete store. -/
theorem c10_witness :
    (interact oneCharStore "hero" "hi" none .failure ttsOracle).1 =
      .err "Failed to get response from LLM." ∧
    (interact oneCharStore "hero" "hi" none .failure ttsOracle).2.conversations =
      oneCharStore.conversations ++
        [{ id := BVal.oid oneCharStore.nextId, timestamp := oneCharStore.clock,
           participants := ["player", "hero"], messages := [],
           summary := "" }] ∧
    (interact oneCharStore "hero" "hi" none .failure ttsOracle).2.messages =
      oneCharStore.messages ∧
    (interact oneCharStore "hero" "hi" none .failure ttsOracle).2.characters =
      oneCharStore.characters ∧
    (interact oneCharStore "hero" "hi" none .failure ttsOracle).2.relationships =
      oneCharStore.relationships :=
  c10_failure_keeps_fresh_conversation oneCharStore "hero" "hi" ttsOracle
    heroChar rfl

/-! ## Claims C2, C6 and C7 -/

theorem latestDirectorMsg_append_isSome (msgs : List Message) (m : Message)
    (hm : m.director_control = true) :
    (latestDirectorMsg (msgs ++ [m])).isSome = true := by
  unfold latestDirectorMsg
  rw [List.filter_append]
  simp only [List.filter_cons, List.filter_nil, hm, if_true]
  rw [List.foldl_append]
  cases (msgs.filter (fun m => m.director_control)).foldl
      (fun acc m =>
        match acc with
        | none => some m
        | some a => if a.timestamp < m.timestamp then some m else some a)
      none with
  | none => rfl
  | some a =>
      show (if a.timestamp < m.timestamp then some m else some a).isSome = true
      by_cases hlt : a.timestamp < m.timestamp
      · rw [if_pos hlt]; rfl
      · rw [if_neg hlt]; rfl

/-- Claim C2 (amended): with at least one contestant, `start_story`
persists exactly one message - the aggregate director-control message,
carrying the returned choice list and `is_game_over: False` - in both the
success and the failure path, leaving characters, conversations and
relationships untouched (it creates no conversation and stores no
per-dialogue-line messages, contrary to the original claim; see the
counterexample), and `get_latest_story_segment` is well-defined
afterwards (a director-control head exists). -/
theorem c2_start_story_amended (st : Store) (resp : StoryResp)
    (h : st.characters.isEmpty = false) :
    (start_story st resp).2.conversations = st.conversations ∧
    (start_story st resp).2.characters = st.characters ∧
    (start_story st resp).2.relationships = st.relationships ∧
    (start_story st resp).2.messages.length = st.messages.length + 1 ∧
    ((start_story st resp).2.messages.getLast?).map
      (fun m => (m.director_control, m.is_game_over, m.conversation_id,
        m.speaker_type, m.choices)) =
      some (true, some false, "SYSTEM_SEASON_START", "system",
        (start_story st resp).1.choices) ∧
    (latestDirectorMsg (start_story st resp).2.messages).isSome = true := by
  cases resp with
  | obj t d c =>
      refine ⟨by simp [start_story, h, insertMsg],
        by simp [start_story, h, insertMsg],
        by simp [start_story, h, insertMsg],
        by simp [start_story, h, insertMsg],
        by simp [start_story, h, insertMsg, List.getLast?_concat], ?_⟩
      simp only [start_story, h, Bool.false_eq_true, if_false, insertMsg]
      exact latestDirectorMsg_append_isSome _ _ rfl
  | raw s =>
      refine ⟨by simp [start_story, h, insertMsg],
        by simp [start_story, h, insertMsg],
        by simp [start_story, h, insertMsg],
        by simp [start_story, h, insertMsg],
        by simp [start_story, h, insertMsg, List.getLast?_concat], ?_⟩
      simp only [start_story, h, Bool.false_eq_true, if_false, insertMsg]
      exact latestDirectorMsg_append_isSome _ _ rfl
  | failure =>
      refine ⟨by simp [start_story, h, insertMsg],
        by simp [start_story, h, insertMsg],
        by simp [start_story, h, insertMsg],
        by simp [start_story, h, insertMsg],
        by simp [start_story, h, insertMsg, List.getLast?_concat], ?_⟩
      simp only [start_story, h, Bool.false_eq_true, if_false, insertMsg]
      exact latestDirectorMsg_append_isSome _ _ rfl

/-- Counterexample for C2: a successful premiere generation with two
dialogue lines persists exactly one message in total and creates no
conversation - the claimed per-line messages (which would make at least
three) and the claimed conversation do not exist. -/
theorem c2_counterexample :
    c2dialogue.length = 2 ∧
    (start_story oneCharStore c2resp).2.messages.length = 1 ∧
    (start_story oneCharStore c2resp).2.conversations = [] :=
  ⟨rfl, rfl, rfl⟩

/-- Witness for C2 at a concrete store and a failed generation. -/
theorem c2_witness :
    (start_story oneCharStore .failure).2.conversations =
      oneCharStore.conversations ∧
    (start_story oneCharStore .failure).2.characters =
      oneCharStore.characters ∧
    (start_story oneCharStore .failure).2.relationships =
      oneCharStore.relationships ∧
    (start_story oneCharStore .failure).2.messages.length =
      oneCharStore.messages.length + 1 ∧
    ((start_story oneCharStore .failure).2.messages.getLast?).map
      (fun m => (m.director_control, m.is_game_over, m.conversation_id,
        m.speaker_type, m.choices)) =
      some (true, some false, "SYSTEM_SEASON_START", "system",
        (start_story oneCharStore .failure).1.choices) ∧
    (latestDirectorMsg (start_story oneCharStore .failure).2.messages).isSome =
      true :=
  c2_start_story_amended oneCharStore .failure rfl

/-- Claim C6 (amended): a `progress_story` call whose generated result
has `is_game_over=true` sets `is_running` to false (`stop()`), but
subsequent `progress_story` calls are not gated on that flag: every call
with a non-empty cast - whatever `is_running` is - still generates and
persists a further director-control scene message. -/
theorem c6_progress_story_amended (ls : LoopState) (choice : String)
    (resp : SceneResp) (h : ls.store.characters.isEmpty = false) :
    (∀ s c, resp = .obj s c (some true) →
      (progress_story ls choice resp).2.is_running = false ∧
      (progress_story ls choice resp).1.is_game_over = some true) ∧
    (progress_story ls choice resp).2.store.messages.length =
      ls.store.messages.length + 1 := by
  constructor
  · rintro s c rfl
    constructor <;> simp [progress_story, h, insertMsg]
  · cases resp <;> simp [progress_story, h, insertMsg]

/-- Counterexample for C6: after a game-ending `progress_story` (season
`Ended`, `is_running = false`) and before any new `start()` or
`start_story()`, a further `progress_story` call is neither rejected nor
a no-op: it persists a new scene message and returns a fresh scene. -/
theorem c6_counterexample :
    c6run1.1.is_game_over = some true ∧
    c6run1.2.is_running = false ∧
    c6run2.2.store.messages.length = c6run1.2.store.messages.length + 1 ∧
    c6run2.1.dialogue = "**A**: hi\n" ∧
    c6run2.1.is_game_over = some false :=
  ⟨rfl, rfl, rfl, rfl, rfl⟩

/-- Witness for C6: a stopped loop still persists a scene, and a
game-over response stops the loop. -/
theorem c6_witness :
    (progress_story c6pausedLoop "keep going" respNext).2.store.messages.length =
      c6pausedLoop.store.messages.length + 1 ∧
    (progress_story c6start "end it" respGO).2.is_running = false ∧
    (progress_story c6start "end it" respGO).1.is_game_over = some true :=
  ⟨(c6_progress_story_amended c6pausedLoop "keep going" respNext rfl).2,
   ((c6_progress_story_amended c6start "end it" respGO rfl).1 _ _ rfl).1,
   ((c6_progress_story_amended c6start "end it" respGO rfl).1 _ _ rfl).2⟩

/-- Claim C7: the claim is right and the code is wrong.  `start_story`
writes `is_game_over` on its director-control message and
`get_latest_story_segment` reads it, but the message persisted by
`progress_story` omits the field; so after a game-ending scene the
narrative head projects `is_game_over = false` although the call itself
reported `true` and stopped the loop. -/
theorem c7_projection_misses_game_over :
    c7run.1.is_game_over = some true ∧
    c7run.2.is_running = false ∧
    (c7run.2.store.messages.getLast?).map Message.is_game_over = some none ∧
    get_latest_story_segment c7run.2.store =
      { dialogue := "**Narrator**: The end.\n", choices := [],
        is_game_over := false } :=
  ⟨rfl, rfl, rfl, rfl⟩

/-! ## Claim C5 -/

theorem genLoop_some_not_taken (slug : String → String)
    (taken : List String) (draws : Nat → Draw) :
    ∀ fuel i cid d, genLoop slug taken draws i fuel = some (cid, d) →
      taken.contains cid = false := by
  intro fuel
  induction fuel with
  | zero => intro i cid d h; exact Option.noConfusion h
  | succ n ih =>
      intro i cid d h
      simp only [genLoop] at h
      by_cases hc : taken.contains (slug (drawName (draws i))) = true
      · rw [if_pos hc] at h
        exact ih (i + 1) cid d h
      · have hc' : taken.contains (slug (drawName (draws i))) = false := by
          cases hb : taken.contains (slug (drawName (draws i)))
          · rfl
          · exact absurd hb hc
        rw [if_neg hc, Option.some.injEq, Prod.mk.injEq] at h
        obtain ⟨hcid, -⟩ := h
        rw [← hcid]
        exact hc'

theorem create_character_eq (slug : String → String) (draws : Nat → Draw)
    (fuel : Nat) (st st' : Store) (c : Character)
    (h : create_character slug draws fuel st = some (st', c)) :
    ∃ cid d,
      genLoop slug (st.characters.map (fun ch => ch.id)) draws 0 fuel =
        some (cid, d) ∧
      st' = (applyCreate st cid d).1 ∧ c = (applyCreate st cid d).2 := by
  unfold create_character at h
  cases hg : genLoop slug (st.characters.map (fun ch => ch.id)) draws 0 fuel with
  | none => rw [hg] at h; exact Option.noConfusion h
  | some pr =>
      obtain ⟨cid, d⟩ := pr
      rw [hg] at h
      injection h with h'
      exact ⟨cid, d, rfl, (congrArg Prod.fst h').symm,
        (congrArg Prod.snd h').symm⟩

/-- Claim C5: after `create_characters(3)` from an empty character
directory, the three generated ids are pairwise distinct, exactly 3
relationship records exist - one per unordered pair, each later creation
paired with every earlier one - and each character document's embedded
relationships map holds exactly the other two ids, every entry at
affinity `0.0`. -/
theorem c5_create_characters_relationships (slug : String → String)
    (draws : Nat → Nat → Draw) (fuel : Nat) (st0 st' : Store)
    (cs : List Character) (i1 i2 i3 : String)
    (h0c : st0.characters = []) (h0r : st0.relationships = [])
    (h : create_characters slug draws fuel 0 3 st0 = some (st', cs))
    (hids : cs.map Character.id = [i1, i2, i3]) :
    (i1 ≠ i2 ∧ i1 ≠ i3 ∧ i2 ≠ i3) ∧
    st'.characters.map Character.id = [i1, i2, i3] ∧
    st'.characters.map Character.relationships =
      [[(i2, (0 : Rat)), (i3, 0)], [(i1, 0), (i3, 0)], [(i1, 0), (i2, 0)]] ∧
    st'.relationships =
      [{ char1_id := i2, char2_id := i1, affinity_score := 0,
         interaction_history := [] },
       { char1_id := i3, char2_id := i1, affinity_score := 0,
         interaction_history := [] },
       { char1_id := i3, char2_id := i2, affinity_score := 0,
         interaction_history := [] }] := by
  simp only [create_characters] at h
  cases hc1 : create_character slug (draws 0) fuel st0 with
  | none => simp [hc1] at h
  | some p1 =>
  obtain ⟨st1, c1⟩ := p1
  simp only [hc1] at h
  cases hc2 : create_character slug (draws 1) fuel st1 with
  | none => simp [hc2] at h
  | some p2 =>
  obtain ⟨st2, c2⟩ := p2
  simp only [hc2] at h
  cases hc3 : create_character slug (draws 2) fuel st2 with
  | none => simp [hc3] at h
  | some p3 =>
  obtain ⟨st3, c3⟩ := p3
  simp only [hc3] at h
  rw [Option.some.injEq, Prod.mk.injEq] at h
  obtain ⟨hst, hcs⟩ := h
  subst hst
  subst hcs
  obtain ⟨cid1, d1, hg1, hst1, hco1⟩ := create_character_eq _ _ _ _ _ _ hc1
  obtain ⟨cid2, d2, hg2, hst2, hco2⟩ := create_character_eq _ _ _ _ _ _ hc2
  obtain ⟨cid3, d3, hg3, hst3, hco3⟩ := create_character_eq _ _ _ _ _ _ hc3
  subst hst1
  subst hst2
  subst hst3
  subst hco1
  subst hco2
  subst hco3
  have hT2 := genLoop_some_not_taken slug _ (draws 1) fuel 0 cid2 d2 hg2
  have hT3 := genLoop_some_not_taken slug _ (draws 2) fuel 0 cid3 d3 hg3
  simp only [applyCreate, h0c, List.map_nil, List.map_cons, List.nil_append,
    List.map_append, List.cons_append, List.contains_cons, List.contains_nil,
    Bool.or_eq_false_iff, beq_eq_false_iff_ne] at hT2 hT3
  obtain ⟨hne21, -⟩ := hT2
  obtain ⟨hne31, hne32, -⟩ := hT3
  simp only [applyCreate, h0c, List.map_nil, List.map_cons,
    List.map_append, List.nil_append, List.cons_append,
    List.append_nil] at hids
  rw [List.cons.injEq, List.cons.injEq, List.cons.injEq] at hids
  obtain ⟨e1, e2, e3, -⟩ := hids
  subst e1
  subst e2
  subst e3
  have b23 : (cid2 == cid3) = false := beq_eq_false_iff_ne.mpr (Ne.symm hne32)
  have b13 : (cid1 == cid3) = false := beq_eq_false_iff_ne.mpr (Ne.symm hne31)
  have b12 : (cid1 == cid2) = false := beq_eq_false_iff_ne.mpr (Ne.symm hne21)
  refine ⟨⟨Ne.symm hne21, Ne.symm hne31, Ne.symm hne32⟩, ?_, ?_, ?_⟩ <;>
    simp [applyCreate, setRel, h0c, h0r, b12, b13, b23]

/-- Witness for C5: three characters created from the empty store with a
distinct-name sampler produce exactly this store. -/
theorem c5_witness :
    ("Bold Alpha" ≠ "Bold Beta" ∧ "Bold Alpha" ≠ "Bold Gamma" ∧
      "Bold Beta" ≠ "Bold Gamma") ∧
    c5res.1.characters.map Character.id =
      ["Bold Alpha", "Bold Beta", "Bold Gamma"] ∧
    c5res.1.characters.map Character.relationships =
      [[("Bold Beta", (0 : Rat)), ("Bold Gamma", 0)],
       [("Bold Alpha", 0), ("Bold Gamma", 0)],
       [("Bold Alpha", 0), ("Bold Beta", 0)]] ∧
    c5res.1.relationships =
      [{ char1_id := "Bold Beta", char2_id := "Bold Alpha",
         affinity_score := 0, interaction_history := [] },
       { char1_id := "Bold Gamma", char2_id := "Bold Alpha",
         affinity_score := 0, interaction_history := [] },
       { char1_id := "Bold Gamma", char2_id := "Bold Beta",
         affinity_score := 0, interaction_history := [] }] :=
  c5_create_characters_relationships idSlug c5draws 1 emptyStore
    c5res.1 c5res.2 "Bold Alpha" "Bold Beta" "Bold Gamma" rfl rfl
    (by rfl) (by rfl)

end InfitIsland
